import Mathlib

/-!
Verification development for the StockAgent repository: a shallow embedding
of the JSON-RPC tool gateway (`mcp_server.py`), the tool client
(`src/mcp_executor.py`), the news provider and the RSI fragment of the
indicator provider, and a spec-level model of the round-robin conversation
loop configured in `src/multi_agent_system.py`.

JSON values are modelled by the inductive `Json`; Python dictionaries are
association lists with first-key-wins lookup (keys decoded from JSON are
unique). Machine floats appear only in the indicator provider and are
modelled by exact rationals extended with infinities and NaN (`PFloat`);
on the paths proved here no rounding is involved, so the model is exact.
-/

/-- JSON values as decoded by the server (numbers restricted to integers,
which covers every value the claims exercise). -/
inductive Json where
  | null : Json
  | bool : Bool → Json
  | num : Int → Json
  | str : String → Json
  | arr : List Json → Json
  | obj : List (String × Json) → Json

/-- Python `dict.get(key)`: first binding of the key, if any. -/
def jget : List (String × Json) → String → Option Json
  | [], _ => Option.none
  | (k, v) :: rest, key => if k = key then some v else jget rest key

/-- Python name of the runtime type of a decoded JSON value, as it appears
in exception messages such as AttributeError. -/
def pyTypeName : Json → String
  | Json.null => "NoneType"
  | Json.bool _ => "bool"
  | Json.num _ => "int"
  | Json.str _ => "str"
  | Json.arr _ => "list"
  | Json.obj _ => "dict"

mutual

/-- Python `repr` of a decoded JSON value (strings single-quoted, `None`,
`True`/`False`, list/dict display forms). -/
def pyRepr : Json → String
  | Json.null => "None"
  | Json.bool b => if b then "True" else "False"
  | Json.num n => toString n
  | Json.str s => "\x27" ++ s ++ "\x27"
  | Json.arr xs => "[" ++ pyReprList xs ++ "]"
  | Json.obj kvs => "\x7b" ++ pyReprObj kvs ++ "\x7d"

/-- Comma-separated `repr` of list elements. -/
def pyReprList : List Json → String
  | [] => ""
  | [x] => pyRepr x
  | x :: rest => pyRepr x ++ ", " ++ pyReprList rest

/-- Comma-separated `repr` of dict entries. -/
def pyReprObj : List (String × Json) → String
  | [] => ""
  | [(k, v)] => "\x27" ++ k ++ "\x27: " ++ pyRepr v
  | (k, v) :: rest => "\x27" ++ k ++ "\x27: " ++ pyRepr v ++ ", " ++ pyReprObj rest

end

/-- Python `str` of a decoded JSON value: identical to `repr` except on
strings, which print without quotes (as interpolated by f-strings). -/
def pyStr : Json → String
  | Json.str s => s
  | j => pyRepr j

/-- Python truthiness of a decoded JSON value. -/
def pyTruthy : Json → Bool
  | Json.null => false
  | Json.bool b => b
  | Json.num n => n != 0
  | Json.str s => !s.isEmpty
  | Json.arr xs => !xs.isEmpty
  | Json.obj kvs => !kvs.isEmpty

/-- Truthiness of an optional value (`dict.get` result): Python `None` is
falsy. -/
def optTruthy : Option Json → Bool
  | Option.none => false
  | some j => pyTruthy j

/-- Python `value == "lit"` for a `dict.get` result: true only when the
value is that very string. -/
def jEqStr : Option Json → String → Bool
  | some (Json.str s), t => s = t
  | _, _ => false

/-- Python substring test `needle in hay`. -/
def strContains (needle hay : String) : Bool :=
  hay.toList.tails.any (fun t => needle.toList.isPrefixOf t)

/-- Message of the AttributeError raised by `x.get(...)` when `x` is not a
dict. -/
def attrGetMsg (j : Json) : String :=
  "\x27" ++ pyTypeName j ++ "\x27 object has no attribute \x27get\x27"

/-- A JSON-RPC correlation id: `Union[str, int]` (absence / JSON `null` is
represented by `Option.none` at the use sites). -/
inductive RpcId where
  | str : String → RpcId
  | num : Int → RpcId
deriving DecidableEq

/-- The `JSONRPCError` pydantic model of `mcp_server.py` (the optional
`data` field is never set by the server and is omitted). -/
structure JSONRPCError where
  code : Int
  message : String
deriving DecidableEq

/-- The `JSONRPCResponse` pydantic model of `mcp_server.py`: protocol tag,
optional id, optional result, optional error. -/
structure JSONRPCResponse where
  jsonrpc : String
  id : Option RpcId
  result : Option Json
  error : Option JSONRPCError

/-- The `JSONRPCRequest` pydantic model of `mcp_server.py`, after
successful validation. -/
structure JSONRPCRequest where
  jsonrpc : String
  id : Option RpcId
  method : String
  params : Option (List (String × Json))

/-- Validation of the `jsonrpc` field: absent defaults to "2.0", a string
is accepted, anything else is a validation error. -/
def parseJsonrpcField : Option Json → Except String String
  | Option.none => Except.ok "2.0"
  | some (Json.str s) => Except.ok s
  | some j => Except.error ("jsonrpc: input should be a valid string, got " ++ pyTypeName j)

/-- Validation of the `id` field (`Union[str, int, None]`, default None). -/
def parseIdField : Option Json → Except String (Option RpcId)
  | Option.none => Except.ok Option.none
  | some Json.null => Except.ok Option.none
  | some (Json.str s) => Except.ok (some (RpcId.str s))
  | some (Json.num n) => Except.ok (some (RpcId.num n))
  | some j => Except.error ("id: input should be a valid string or integer, got " ++ pyTypeName j)

/-- Validation of the required `method` field (`str`). -/
def parseMethodField : Option Json → Except String String
  | some (Json.str s) => Except.ok s
  | Option.none => Except.error "method: field required"
  | some j => Except.error ("method: input should be a valid string, got " ++ pyTypeName j)

/-- Validation of the `params` field (`Optional[Dict[str, Any]]`). -/
def parseParamsField : Option Json → Except String (Option (List (String × Json)))
  | Option.none => Except.ok Option.none
  | some Json.null => Except.ok Option.none
  | some (Json.obj kvs) => Except.ok (some kvs)
  | some j => Except.error ("params: input should be a valid dictionary, got " ++ pyTypeName j)

/-- `JSONRPCRequest(**body)`: pydantic validation of a decoded body.
Extra keys are ignored (pydantic default); a non-dict body raises
TypeError at the unpacking. The exact wording of the pydantic
ValidationError message is abstracted; the server only embeds it in an
`Internal error:` diagnostic and no claim depends on it. -/
def parseJSONRPCRequest (body : Json) : Except String JSONRPCRequest :=
  match body with
  | Json.obj kvs => do
      let j ← parseJsonrpcField (jget kvs "jsonrpc")
      let i ← parseIdField (jget kvs "id")
      let m ← parseMethodField (jget kvs "method")
      let p ← parseParamsField (jget kvs "params")
      Except.ok ⟨j, i, m, p⟩
  | j => Except.error ("argument after ** must be a mapping, not " ++ pyTypeName j)

/-- The static `TOOLS` registry of `mcp_server.py`. -/
def TOOLS : Json :=
  Json.arr [
    Json.obj [
      ("name", Json.str "news_sentiment_tool"),
      ("description", Json.str "Analyze news sentiment for a given stock ticker"),
      ("inputSchema", Json.obj [
        ("type", Json.str "object"),
        ("properties", Json.obj [
          ("ticker_symbol", Json.obj [
            ("type", Json.str "string"),
            ("description", Json.str "Stock ticker symbol (e.g., \x27AAPL\x27, \x27MSFT\x27)")])]),
        ("required", Json.arr [Json.str "ticker_symbol"])])],
    Json.obj [
      ("name", Json.str "technical_analysis_tool"),
      ("description", Json.str "Perform technical analysis for a given stock ticker"),
      ("inputSchema", Json.obj [
        ("type", Json.str "object"),
        ("properties", Json.obj [
          ("ticker_symbol", Json.obj [
            ("type", Json.str "string"),
            ("description", Json.str "Stock ticker symbol (e.g., \x27AAPL\x27, \x27MSFT\x27)")])]),
        ("required", Json.arr [Json.str "ticker_symbol"])])]]

/-- `handle_list_tools` of `mcp_server.py`. -/
def handle_list_tools (request_id : Option RpcId) : JSONRPCResponse :=
  ⟨"2.0", request_id, some (Json.obj [("tools", TOOLS)]), Option.none⟩

/-- Models `handle_initialize` of `mcp_server.py` (static metadata). -/
def handle_init (request_id : Option RpcId) : JSONRPCResponse :=
  ⟨"2.0", request_id,
    some (Json.obj [
      ("protocolVersion", Json.str "2024-11-05"),
      ("capabilities", Json.obj [("tools", Json.obj [])]),
      ("serverInfo", Json.obj [
        ("name", Json.str "financial-analysis-server"),
        ("version", Json.str "1.0.0")])]),
    Option.none⟩

/-- Interpolation `f"Unknown tool: \x7btool_name\x7d"` where `tool_name`
may be Python `None` (key absent). -/
def pyOptStr : Option Json → String
  | Option.none => "None"
  | some j => pyStr j

/-- The single text content block the gateway wraps a tool result in. -/
def textContent (text : String) : Json :=
  Json.obj [("content", Json.arr [
    Json.obj [("type", Json.str "text"), ("text", Json.str text)]])]

/-- `handle_call_tool` of `mcp_server.py`. The two providers are passed as
functions `Json → String` giving the Python `str()` of
`fetch_news_sentiment` / `fetch_technical_analysis` applied to the
(decoded) `ticker_symbol` argument — the only way the handler uses a
provider's return value is to interpolate it into an f-string. A non-dict
`arguments` value makes `arguments.get` raise AttributeError, which the
handler's `except` turns into a -32603 response. -/
def handle_call_tool (news tech : Json → String) (request_id : Option RpcId)
    (params : List (String × Json)) : JSONRPCResponse :=
  let tool_name := jget params "name"
  let arguments := (jget params "arguments").getD (Json.obj [])
  if jEqStr tool_name "news_sentiment_tool" then
    match arguments with
    | Json.obj akvs =>
      let ticker_symbol := jget akvs "ticker_symbol"
      if !optTruthy ticker_symbol then
        ⟨"2.0", request_id, Option.none, some ⟨-32602, "ticker_symbol is required"⟩⟩
      else
        let t := ticker_symbol.getD Json.null
        ⟨"2.0", request_id,
          some (textContent ("News sentiment analysis for " ++ pyStr t ++ ": " ++ news t)),
          Option.none⟩
    | j => ⟨"2.0", request_id, Option.none, some ⟨-32603, "Internal error: " ++ attrGetMsg j⟩⟩
  else if jEqStr tool_name "technical_analysis_tool" then
    match arguments with
    | Json.obj akvs =>
      let ticker_symbol := jget akvs "ticker_symbol"
      if !optTruthy ticker_symbol then
        ⟨"2.0", request_id, Option.none, some ⟨-32602, "ticker_symbol is required"⟩⟩
      else
        let t := ticker_symbol.getD Json.null
        ⟨"2.0", request_id,
          some (textContent ("Technical analysis for " ++ pyStr t ++ ": " ++ tech t)),
          Option.none⟩
    | j => ⟨"2.0", request_id, Option.none, some ⟨-32603, "Internal error: " ++ attrGetMsg j⟩⟩
  else
    ⟨"2.0", request_id, Option.none, some ⟨-32601, "Unknown tool: " ++ pyOptStr tool_name⟩⟩

/-- `handle_single_request` of `mcp_server.py`: validate, dispatch on the
method name, and catch any fault as a -32603 response (whose `id` is the
model default `None`, not the request's). -/
def handle_single_request (news tech : Json → String) (body : Json) : JSONRPCResponse :=
  match parseJSONRPCRequest body with
  | Except.error e => ⟨"2.0", Option.none, Option.none, some ⟨-32603, "Internal error: " ++ e⟩⟩
  | Except.ok rpc =>
    if rpc.method = "initialize" then handle_init rpc.id
    else if rpc.method = "tools/list" then handle_list_tools rpc.id
    else if rpc.method = "tools/call" then handle_call_tool news tech rpc.id (rpc.params.getD [])
    else ⟨"2.0", rpc.id, Option.none, some ⟨-32601, "Method not found: " ++ rpc.method⟩⟩

/-- Input to the `/mcp` endpoint: either `request.json()` raised (body not
decodable) or it produced a JSON value. -/
inductive EndpointBody where
  | decodeFail : EndpointBody
  | value : Json → EndpointBody

/-- Output of the `/mcp` endpoint: one response or an ordered batch. -/
inductive EndpointResult where
  | single : JSONRPCResponse → EndpointResult
  | batch : List JSONRPCResponse → EndpointResult

/-- `mcp_endpoint` of `mcp_server.py`: a dict body is handled singly, a
list body element-wise in order, anything else (or an undecodable body)
yields a -32700 parse error. -/
def mcp_endpoint (news tech : Json → String) : EndpointBody → EndpointResult
  | EndpointBody.decodeFail =>
      EndpointResult.single ⟨"2.0", Option.none, Option.none, some ⟨-32700, "Parse error"⟩⟩
  | EndpointBody.value (Json.obj kvs) =>
      EndpointResult.single (handle_single_request news tech (Json.obj kvs))
  | EndpointBody.value (Json.arr xs) =>
      EndpointResult.batch (xs.map (handle_single_request news tech))
  | EndpointBody.value _ =>
      EndpointResult.single ⟨"2.0", Option.none, Option.none, some ⟨-32700, "Parse error"⟩⟩

/-- All responses an endpoint invocation produces. -/
def responsesOf : EndpointResult → List JSONRPCResponse
  | EndpointResult.single r => [r]
  | EndpointResult.batch rs => rs

/-- A response carries exactly one of result and error. -/
def exactlyOneOf (r : JSONRPCResponse) : Bool :=
  (r.result.isSome && r.error.isNone) || (r.result.isNone && r.error.isSome)

/-- Code of the error object, if any. -/
def errCode (r : JSONRPCResponse) : Option Int :=
  r.error.map (fun e => e.code)

/-- Outcome of the HTTP exchange inside `MCPToolExecutor.call_tool`
(`src/mcp_executor.py`): either the POST itself raised (connection
failure), or a response arrived with a status code and a body that either
decodes to JSON or does not. -/
inductive TransportOutcome where
  | connectError : String → TransportOutcome
  | httpResponse : Nat → Option Json → TransportOutcome

/-- What `call_tool` does, seen from its caller: either an exception
propagates out of the method, or a string is returned. Exception message
texts are representative; no claim depends on their wording. -/
inductive CallResult where
  | raised : String → CallResult
  | returned : String → CallResult
deriving DecidableEq

/-- The `error_info` branch of `call_tool`: a dict error object is
formatted as `MCP Error [code]: message` with `.get` defaults, any other
non-None object as `MCP Error: ...`. -/
def formatErrorInfo (e : Json) : String :=
  match e with
  | Json.obj ekvs =>
      let error_message := match jget ekvs "message" with
        | Option.none => "Unknown error"
        | some v => pyStr v
      let error_code := match jget ekvs "code" with
        | Option.none => "Unknown code"
        | some v => pyStr v
      "MCP Error [" ++ error_code ++ "]: " ++ error_message
  | e => "MCP Error: " ++ pyStr e

/-- The `content` inspection tail of `call_tool` (`result` already known
to be the dict `rkvs`): truthiness test, then `len`, then `content[0]`,
each with its Python failure mode. -/
def inspectContent (rkvs : List (String × Json)) (content : Json) : CallResult :=
  if !pyTruthy content then
    CallResult.returned ("No content returned. Full result: " ++ pyStr (Json.obj rkvs))
  else
    match content with
    | Json.arr (first_content :: _) =>
      match first_content with
      | Json.obj fkvs =>
        if pyTruthy (Json.obj fkvs) then
          CallResult.returned (match jget fkvs "text" with
            | Option.none => "No text content available"
            | some v => pyStr v)
        else
          CallResult.returned ("Unexpected content format: " ++ pyStr first_content)
      | fc => CallResult.returned ("Unexpected content format: " ++ pyStr fc)
    | Json.str s => CallResult.returned ("Unexpected content format: " ++ String.mk [s.toList.headD ('x')])
    | Json.obj _ => CallResult.raised "KeyError: 0"
    | c => CallResult.raised ("object of type \x27" ++ pyTypeName c ++ "\x27 has no len()")

/-- The `result = rpc_response.get("result")` tail of `call_tool`. -/
def processResultField (kvs : List (String × Json)) : CallResult :=
  match jget kvs "result" with
  | Option.none => CallResult.returned "Error: No result field in MCP response"
  | some Json.null => CallResult.returned "Error: No result field in MCP response"
  | some (Json.obj rkvs) => inspectContent rkvs ((jget rkvs "content").getD (Json.arr []))
  | some r => CallResult.raised (attrGetMsg r)

/-- The `rpc_response` inspection of `call_tool`, after a successful
(status < 400) exchange with a decodable body. -/
def processRpcResponse (rpc_response : Json) : CallResult :=
  match rpc_response with
  | Json.null => CallResult.returned "Error: Received None response from MCP server"
  | Json.obj kvs =>
    match jget kvs "error" with
    | some Json.null =>
        processResultField kvs
    | some e => CallResult.returned (formatErrorInfo e)
    | Option.none => processResultField kvs
  | Json.str s =>
    if strContains "error" s then
      CallResult.raised "string indices must be integers"
    else
      CallResult.raised (attrGetMsg (Json.str s))
  | Json.arr xs =>
    if xs.any (fun x => match x with | Json.str s => s = "error" | _ => false) then
      CallResult.raised "list indices must be integers or slices, not str"
    else
      CallResult.raised (attrGetMsg (Json.arr xs))
  | j => CallResult.raised ("argument of type \x27" ++ pyTypeName j ++ "\x27 is not iterable")

/-- `MCPToolExecutor.call_tool` of `src/mcp_executor.py`, as a function of
the transport outcome: the method has no try/except, so a connection
failure propagates, `raise_for_status()` raises on any status >= 400, and
only then is the JSON-RPC envelope inspected. -/
def call_tool (transport : TransportOutcome) : CallResult :=
  match transport with
  | TransportOutcome.connectError msg => CallResult.raised msg
  | TransportOutcome.httpResponse status body =>
    if 400 ≤ status then
      CallResult.raised ("HTTP status error " ++ toString status)
    else
      match body with
      | Option.none => CallResult.raised "response body is not valid JSON"
      | some rpc_response => processRpcResponse rpc_response

/-- Outcome of `yf.Ticker(t).news` inside `fetch_news_sentiment`: either
the fetch raised (message of the exception) or it produced a list of news
items (arbitrary decoded values). -/
inductive FetchOutcome where
  | fault : String → FetchOutcome
  | news : List Json → FetchOutcome

/-- Return value of `fetch_news_sentiment`: a plain string (placeholder or
error description) or the list of article digests. -/
inductive NewsResult where
  | text : String → NewsResult
  | digest : List String → NewsResult
deriving DecidableEq

/-- One iteration of the article loop of `fetch_news_sentiment`:
`news[i].get(\x27content\x27, \x7b\x7d).get(\x27title\x27, \x27\x27)` and
likewise for the summary; a non-dict item or non-dict `content` value
raises AttributeError. -/
def articleLine (i : Nat) (item : Json) : Except String String :=
  match item with
  | Json.obj kvs =>
    match (jget kvs "content").getD (Json.obj []) with
    | Json.obj ckvs =>
      let title := match jget ckvs "title" with
        | Option.none => ""
        | some v => pyStr v
      let summary := match jget ckvs "summary" with
        | Option.none => ""
        | some v => pyStr v
      Except.ok ("Article #" ++ toString (i + 1) ++ ". " ++ title ++ " - " ++ summary)
    | c => Except.error (attrGetMsg c)
  | j => Except.error (attrGetMsg j)

/-- The article loop of `fetch_news_sentiment`, starting at index `i`:
stops at the first raising item (the `except` catches mid-loop). -/
def buildArticles (i : Nat) : List Json → Except String (List String)
  | [] => Except.ok []
  | item :: rest => do
      let line ← articleLine i item
      let more ← buildArticles (i + 1) rest
      Except.ok (line :: more)

/-- `fetch_news_sentiment` of `mcp_server.py`, as a function of the fetch
outcome: a fault becomes an error string, an empty list the fixed
placeholder, otherwise the 1-indexed digests (or an error string if an
item raises mid-loop). -/
def fetch_news_sentiment (outcome : FetchOutcome) : NewsResult :=
  match outcome with
  | FetchOutcome.fault e => NewsResult.text ("Error fetching news articles: " ++ e)
  | FetchOutcome.news items =>
    if items.isEmpty then
      NewsResult.text "No recent news available for this ticker."
    else
      match buildArticles 0 items with
      | Except.ok articles => NewsResult.digest articles
      | Except.error e => NewsResult.text ("Error fetching news articles: " ++ e)

/-- Whether a news item survives the content-chain of `articleLine`
without raising: it is a dict whose `content` value (defaulting to an
empty dict) is itself a dict. -/
def itemOk (item : Json) : Bool :=
  match item with
  | Json.obj kvs =>
    match (jget kvs "content").getD (Json.obj []) with
    | Json.obj _ => true
    | _ => false
  | _ => false

/-- The title a well-formed item contributes (empty when absent). -/
def titleOf (item : Json) : String :=
  match item with
  | Json.obj kvs =>
    match (jget kvs "content").getD (Json.obj []) with
    | Json.obj ckvs =>
      match jget ckvs "title" with
      | Option.none => ""
      | some v => pyStr v
    | _ => ""
  | _ => ""

/-- The summary a well-formed item contributes (empty when absent). -/
def summaryOf (item : Json) : String :=
  match item with
  | Json.obj kvs =>
    match (jget kvs "content").getD (Json.obj []) with
    | Json.obj ckvs =>
      match jget ckvs "summary" with
      | Option.none => ""
      | some v => pyStr v
    | _ => ""
  | _ => ""

/-- The digests the loop produces on a list of well-formed items, the
first one numbered `i + 1`. -/
def articleStrings (i : Nat) : List Json → List String
  | [] => []
  | item :: rest =>
      ("Article #" ++ toString (i + 1) ++ ". " ++ titleOf item ++ " - " ++ summaryOf item)
        :: articleStrings (i + 1) rest

/-- Machine floats of the indicator computation, modelled as exact
rationals extended with the IEEE special values that pandas arithmetic
produces (no rounding occurs on the paths proved about this model). -/
inductive PFloat where
  | val : ℚ → PFloat
  | pinf : PFloat
  | ninf : PFloat
  | nan : PFloat
deriving DecidableEq

/-- IEEE addition on the model. -/
def PFloat.add : PFloat → PFloat → PFloat
  | PFloat.val a, PFloat.val b => PFloat.val (a + b)
  | PFloat.val _, PFloat.pinf => PFloat.pinf
  | PFloat.val _, PFloat.ninf => PFloat.ninf
  | PFloat.pinf, PFloat.val _ => PFloat.pinf
  | PFloat.ninf, PFloat.val _ => PFloat.ninf
  | PFloat.pinf, PFloat.pinf => PFloat.pinf
  | PFloat.ninf, PFloat.ninf => PFloat.ninf
  | PFloat.pinf, PFloat.ninf => PFloat.nan
  | PFloat.ninf, PFloat.pinf => PFloat.nan
  | PFloat.nan, _ => PFloat.nan
  | _, PFloat.nan => PFloat.nan

/-- IEEE subtraction on the model. -/
def PFloat.sub : PFloat → PFloat → PFloat
  | PFloat.val a, PFloat.val b => PFloat.val (a - b)
  | PFloat.val _, PFloat.pinf => PFloat.ninf
  | PFloat.val _, PFloat.ninf => PFloat.pinf
  | PFloat.pinf, PFloat.val _ => PFloat.pinf
  | PFloat.ninf, PFloat.val _ => PFloat.ninf
  | PFloat.pinf, PFloat.ninf => PFloat.pinf
  | PFloat.ninf, PFloat.pinf => PFloat.ninf
  | PFloat.pinf, PFloat.pinf => PFloat.nan
  | PFloat.ninf, PFloat.ninf => PFloat.nan
  | PFloat.nan, _ => PFloat.nan
  | _, PFloat.nan => PFloat.nan

/-- Division as numpy/pandas performs it elementwise: finite over zero
gives a signed infinity (NaN for 0/0) and never raises. -/
def PFloat.div : PFloat → PFloat → PFloat
  | PFloat.val a, PFloat.val b =>
      if b = 0 then
        if a > 0 then PFloat.pinf else if a < 0 then PFloat.ninf else PFloat.nan
      else PFloat.val (a / b)
  | PFloat.val _, PFloat.pinf => PFloat.val 0
  | PFloat.val _, PFloat.ninf => PFloat.val 0
  | PFloat.pinf, PFloat.val b => if b < 0 then PFloat.ninf else PFloat.pinf
  | PFloat.ninf, PFloat.val b => if b < 0 then PFloat.pinf else PFloat.ninf
  | PFloat.pinf, PFloat.pinf => PFloat.nan
  | PFloat.pinf, PFloat.ninf => PFloat.nan
  | PFloat.ninf, PFloat.pinf => PFloat.nan
  | PFloat.ninf, PFloat.ninf => PFloat.nan
  | PFloat.nan, _ => PFloat.nan
  | _, PFloat.nan => PFloat.nan

/-- Day-over-day deltas of a close series (`data["Close"].diff()`, minus
the leading NaN row pandas puts at index 0). -/
def diffs (closes : List ℚ) : List ℚ :=
  (closes.zip closes.tail).map (fun p => p.2 - p.1)

/-- The RSI value of the final row, per lines 38-44 of `mcp_server.py`:
14-day rolling means of clipped deltas, `rs = avg_gain / avg_loss`,
`RSI = 100 - (100 / (1 + rs))`. With fewer than 14 deltas the rolling
window is incomplete and pandas reports NaN. -/
def rsiLast (closes : List ℚ) : PFloat :=
  let ds := diffs closes
  if ds.length < 14 then PFloat.nan
  else
    let window := ds.drop (ds.length - 14)
    let gain := window.map (fun d => max d 0)
    let loss := window.map (fun d => max (-d) 0)
    let avg_gain : ℚ := gain.sum / 14
    let avg_loss : ℚ := loss.sum / 14
    let rs := PFloat.div (PFloat.val avg_gain) (PFloat.val avg_loss)
    PFloat.sub (PFloat.val 100) (PFloat.div (PFloat.val 100) (PFloat.add (PFloat.val 1) rs))

/-- Modelled from the spec: the termination reasons of the conversation
loop state machine of section 4.6 (the loop itself is the external
`RoundRobinGroupChat` that `MultiAgentSystem._create_team` configures with
`max_turns` and `TextMentionTermination("FINAL VERDICT")`; its body is not
part of this repository). -/
inductive TermReason where
  | phraseMatched : TermReason
  | turnBudgetExhausted : TermReason
deriving DecidableEq

/-- Modelled from the spec: the three round-robin participants. -/
def participants : List String :=
  ["SentimentAnalyst", "TechnicalAnalyst", "Orchestrator"]

/-- Modelled from the spec: the speaker of turn `t` (cyclic order). -/
def speakerOf (t : Nat) : String :=
  participants.getD (t % participants.length) ""

/-- The termination-phrase test: the utterance text contains the literal
case-sensitive substring "FINAL VERDICT". -/
def hasFinalVerdict (s : String) : Bool :=
  strContains "FINAL VERDICT" s

/-- Modelled from the spec: the conversation loop of section 4.6 with
`remaining` turns of budget left and `t` turns already taken. Each step
the current participant produces utterance `utter t`; the phrase check
runs after every utterance and wins even mid-cycle; an exhausted budget
terminates the loop. Returns the total number of turns taken and the
termination reason. -/
def runConversation (utter : Nat → String) : Nat → Nat → Nat × TermReason
  | 0, t => (t, TermReason.turnBudgetExhausted)
  | remaining + 1, t =>
    if hasFinalVerdict (utter t) then (t + 1, TermReason.phraseMatched)
    else runConversation utter remaining (t + 1)

/-- Modelled from the spec: a full run with turn budget `maxTurns`. -/
def runLoop (utter : Nat → String) (maxTurns : Nat) : Nat × TermReason :=
  runConversation utter maxTurns 0

/-- With no phrase in the next `n` utterances, the loop runs all of them
and exhausts the budget. -/
theorem runConversation_budget (utter : Nat → String) :
    ∀ (n t : Nat), (∀ s, t ≤ s → s < t + n → hasFinalVerdict (utter s) = false) →
      runConversation utter n t = (t + n, TermReason.turnBudgetExhausted) := by
  intro n
  induction n with
  | zero => intro t _; simp [runConversation]
  | succ n ih =>
    intro t h
    have h0 : hasFinalVerdict (utter t) = false := h t (Nat.le_refl t) (by omega)
    have ihr := ih (t + 1) (fun s h1 h2 => h s (by omega) (by omega))
    have harith : t + 1 + n = t + (n + 1) := by omega
    rw [runConversation, h0, if_neg (by simp), ihr, harith]

/-- With the first phrase occurring `k` turns ahead and budget to reach
it, the loop stops right after that utterance. -/
theorem runConversation_phrase (utter : Nat → String) :
    ∀ (n t k : Nat), k < n →
      (∀ s, t ≤ s → s < t + k → hasFinalVerdict (utter s) = false) →
      hasFinalVerdict (utter (t + k)) = true →
      runConversation utter n t = (t + k + 1, TermReason.phraseMatched) := by
  intro n
  induction n with
  | zero => intro t k hk _ _; exact absurd hk (Nat.not_lt_zero k)
  | succ n ih =>
    intro t k hk hpre hph
    cases k with
    | zero =>
      have h0 : hasFinalVerdict (utter t) = true := by simpa using hph
      simp [runConversation, h0]
    | succ k =>
      have h0 : hasFinalVerdict (utter t) = false := hpre t (Nat.le_refl t) (by omega)
      have hsh : t + 1 + k = t + (k + 1) := by omega
      have ihr := ih (t + 1) k (by omega)
        (fun s h1 h2 => hpre s (by omega) (by omega))
        (by rw [hsh]; exact hph)
      have harith : t + 1 + k + 1 = t + (k + 1) + 1 := by omega
      rw [runConversation, h0, if_neg (by simp), ihr, harith]

/-- C1: for every run of the conversation loop over the three
participants, the loop terminates: if an utterance contains the literal
case-sensitive substring "FINAL VERDICT", the loop stops immediately
after that utterance with reason phrase-matched (even mid-cycle);
otherwise, with configured maximum turns N, it stops after exactly N
turns with reason turn-budget-exhausted. -/
theorem conversation_loop_termination (utter : Nat → String) (N : Nat) :
    ((∀ t, t < N → hasFinalVerdict (utter t) = false) →
        runLoop utter N = (N, TermReason.turnBudgetExhausted))
    ∧ (∀ t, t < N → (∀ s, s < t → hasFinalVerdict (utter s) = false) →
        hasFinalVerdict (utter t) = true →
        runLoop utter N = (t + 1, TermReason.phraseMatched)) := by
  constructor
  · intro h
    have hb := runConversation_budget utter N 0 (fun s _ h2 => h s (by omega))
    simpa [runLoop] using hb
  · intro t ht hpre hph
    have hp := runConversation_phrase utter N 0 t ht
      (fun s _ h2 => hpre s (by omega)) (by simpa using hph)
    simpa [runLoop] using hp

/-- Concrete run of `conversation_loop_termination`: a scripted loop whose
third utterance announces the verdict stops after 3 of 6 turns, and a
scripted loop that never does exhausts a 4-turn budget. -/
theorem conversation_loop_termination_witness :
    runLoop (fun t => if t = 2 then "FINAL VERDICT: STRONG performance" else "still analyzing") 6
      = (3, TermReason.phraseMatched)
    ∧ runLoop (fun _ => "still analyzing") 4 = (4, TermReason.turnBudgetExhausted) :=
  ⟨(conversation_loop_termination
      (fun t => if t = 2 then "FINAL VERDICT: STRONG performance" else "still analyzing") 6).2
      2 (by decide) (by decide) (by decide),
   (conversation_loop_termination (fun _ => "still analyzing") 4).1 (fun t _ => by decide)⟩

/-- C9: for every price series whose last 14 day-over-day deltas are all
positive (all gains, zero losses, so avg_loss = 0), the RSI computation
does not crash: the division avg_gain/avg_loss gives +inf without
raising, and the RSI formula gives the defined value 100 for the final
row. -/
theorem rsi_all_gains_defined (closes : List ℚ)
    (hlen : 14 ≤ (diffs closes).length)
    (hpos : ∀ d ∈ (diffs closes).drop ((diffs closes).length - 14), 0 < d) :
    rsiLast closes = PFloat.val 100 := by
  unfold rsiLast
  rw [if_neg (by omega)]
  have hlenw : ((diffs closes).drop ((diffs closes).length - 14)).length = 14 := by
    rw [List.length_drop]
    omega
  have hne : (diffs closes).drop ((diffs closes).length - 14) ≠ [] := by
    intro hempty
    rw [hempty] at hlenw
    simp at hlenw
  have hloss : (((diffs closes).drop ((diffs closes).length - 14)).map
      (fun d => max (-d) 0)).sum = 0 := by
    apply List.sum_eq_zero
    intro x hx
    obtain ⟨d, hd, rfl⟩ := List.mem_map.mp hx
    exact max_eq_right (by have := hpos d hd; linarith)
  have hgain : 0 < (((diffs closes).drop ((diffs closes).length - 14)).map
      (fun d => max d 0)).sum := by
    apply List.sum_pos
    · intro x hx
      obtain ⟨d, hd, rfl⟩ := List.mem_map.mp hx
      have := hpos d hd
      rw [max_eq_left (by linarith)]
      exact this
    · intro hempty
      exact hne (List.map_eq_nil_iff.mp hempty)
  have hag : 0 < (((diffs closes).drop ((diffs closes).length - 14)).map
      (fun d => max d 0)).sum / 14 := by positivity
  dsimp only
  rw [hloss]
  rw [show ((0 : ℚ) / 14) = 0 from by norm_num]
  rw [PFloat.div, if_pos rfl, if_pos hag]
  rw [PFloat.add, PFloat.div, PFloat.sub]
  norm_num

/-- Concrete run of `rsi_all_gains_defined`: a strictly increasing 15-day
close series has 14 positive deltas and RSI exactly 100 on the final
row. -/
theorem rsi_all_gains_defined_witness :
    rsiLast [1, 2, 3, 4, 5, 6, 7, 8, 9, 10, 11, 12, 13, 14, 15] = PFloat.val 100 :=
  rsi_all_gains_defined [1, 2, 3, 4, 5, 6, 7, 8, 9, 10, 11, 12, 13, 14, 15]
    (by norm_num [diffs]) (by norm_num [diffs])

/-- A `jEqStr` success pins down the looked-up value. -/
theorem jEqStr_true (v : Option Json) (t : String) (h : jEqStr v t = true) :
    v = some (Json.str t) := by
  cases v with
  | none => simp [jEqStr] at h
  | some j =>
    cases j <;> simp [jEqStr] at h
    simp [h]

/-- `handle_call_tool` always echoes the request id it was given. -/
theorem handle_call_tool_id (news tech : Json → String) (rid : Option RpcId)
    (params : List (String × Json)) :
    (handle_call_tool news tech rid params).id = rid := by
  unfold handle_call_tool
  dsimp only
  repeat' split
  all_goals rfl

/-- Every `handle_call_tool` response carries exactly one of result and
error. -/
theorem handle_call_tool_exclusive (news tech : Json → String) (rid : Option RpcId)
    (params : List (String × Json)) :
    exactlyOneOf (handle_call_tool news tech rid params) = true := by
  unfold handle_call_tool
  dsimp only
  repeat' split
  all_goals rfl

/-- Every `handle_single_request` response carries exactly one of result
and error. -/
theorem handle_single_request_exclusive (news tech : Json → String) (body : Json) :
    exactlyOneOf (handle_single_request news tech body) = true := by
  unfold handle_single_request
  repeat' split
  all_goals first | rfl | apply handle_call_tool_exclusive

/-- C7: every ToolResponse produced by the gateway, for any request
whatsoever (valid, invalid params, unknown method or tool, undecodable,
or faulting internally), carries exactly one of the result field and the
error field, never both and never neither. -/
theorem gateway_responses_exclusive (news tech : Json → String) (b : EndpointBody) :
    ∀ r ∈ responsesOf (mcp_endpoint news tech b), exactlyOneOf r = true := by
  intro r hr
  cases b with
  | decodeFail =>
    simp [mcp_endpoint, responsesOf] at hr
    subst hr
    rfl
  | value j =>
    cases j with
    | obj kvs =>
      simp [mcp_endpoint, responsesOf] at hr
      subst hr
      exact handle_single_request_exclusive news tech (Json.obj kvs)
    | arr xs =>
      simp [mcp_endpoint, responsesOf] at hr
      obtain ⟨x, hx, rfl⟩ := hr
      exact handle_single_request_exclusive news tech x
    | null =>
      simp [mcp_endpoint, responsesOf] at hr
      subst hr
      rfl
    | bool bb =>
      simp [mcp_endpoint, responsesOf] at hr
      subst hr
      rfl
    | num n =>
      simp [mcp_endpoint, responsesOf] at hr
      subst hr
      rfl
    | str s =>
      simp [mcp_endpoint, responsesOf] at hr
      subst hr
      rfl

/-- Concrete run of `gateway_responses_exclusive` on an empty-object
request body. -/
theorem gateway_responses_exclusive_witness :
    exactlyOneOf (handle_single_request (fun _ => "") (fun _ => "") (Json.obj [])) = true :=
  gateway_responses_exclusive (fun _ => "") (fun _ => "") (EndpointBody.value (Json.obj []))
    (handle_single_request (fun _ => "") (fun _ => "") (Json.obj []))
    (by simp [mcp_endpoint, responsesOf])

/-- C6 (amended): for every request body that validates against the
request model, the response's correlation id equals the request's id
unchanged (absent id echoed as absent); for every body that fails
validation, the response's id is absent regardless of any id the body
carried. -/
theorem response_id_echoed (news tech : Json → String) (body : Json) (rpc : JSONRPCRequest) :
    (parseJSONRPCRequest body = Except.ok rpc →
       (handle_single_request news tech body).id = rpc.id)
    ∧ (∀ e, parseJSONRPCRequest body = Except.error e →
       (handle_single_request news tech body).id = Option.none) := by
  constructor
  · intro hp
    unfold handle_single_request
    simp only [hp]
    repeat' split
    all_goals first | rfl | apply handle_call_tool_id
  · intro e hp
    unfold handle_single_request
    simp only [hp]

/-- C6 counterexample: a malformed body (no `method` field) carrying
correlation id 1 gets a response whose id is absent, so the echo property
does not extend to requests that fail validation. -/
theorem response_id_dropped_on_invalid :
    (handle_single_request (fun _ => "") (fun _ => "")
        (Json.obj [("id", Json.num 1)])).id = Option.none
    ∧ jget [("id", Json.num 1)] "id" = some (Json.num 1) :=
  ⟨rfl, rfl⟩

/-- Concrete run of `response_id_echoed`: a valid `tools/list` body with
id 7 is echoed, an undecodable-as-model body gets an absent id. -/
theorem response_id_echoed_witness :
    (handle_single_request (fun _ => "") (fun _ => "")
        (Json.obj [("id", Json.num 7), ("method", Json.str "tools/list")])).id
      = some (RpcId.num 7)
    ∧ (handle_single_request (fun _ => "") (fun _ => "") (Json.str "junk")).id
      = Option.none :=
  ⟨(response_id_echoed (fun _ => "") (fun _ => "")
      (Json.obj [("id", Json.num 7), ("method", Json.str "tools/list")])
      ⟨"2.0", some (RpcId.num 7), "tools/list", Option.none⟩).1 rfl,
   (response_id_echoed (fun _ => "") (fun _ => "") (Json.str "junk")
      ⟨"2.0", Option.none, "none", Option.none⟩).2 _ rfl⟩

/-- C3: for every well-formed tools/call request naming one of the two
registered tools with a non-empty string ticker_symbol present, the
response's result wraps the invoked provider's return value (here: its
interpolated text) as a single text content block, and carries no error
field. -/
theorem call_known_tool_wraps_result (news tech : Json → String) (rid : Option RpcId)
    (params akvs : List (String × Json)) (t : String)
    (ht : t ≠ "")
    (hargs : jget params "arguments" = some (Json.obj akvs))
    (htick : jget akvs "ticker_symbol" = some (Json.str t)) :
    (jget params "name" = some (Json.str "news_sentiment_tool") →
      handle_call_tool news tech rid params
        = ⟨"2.0", rid,
            some (textContent ("News sentiment analysis for " ++ t ++ ": " ++ news (Json.str t))),
            Option.none⟩)
    ∧ (jget params "name" = some (Json.str "technical_analysis_tool") →
      handle_call_tool news tech rid params
        = ⟨"2.0", rid,
            some (textContent ("Technical analysis for " ++ t ++ ": " ++ tech (Json.str t))),
            Option.none⟩) := by
  have htE : t.isEmpty = false := by
    rw [Bool.eq_false_iff]
    intro hc
    exact ht ((String.isEmpty_iff t).mp hc)
  constructor
  · intro hname
    simp [handle_call_tool, hname, hargs, htick, jEqStr, optTruthy, pyTruthy, pyStr, htE]
  · intro hname
    simp [handle_call_tool, hname, hargs, htick, jEqStr, optTruthy, pyTruthy, pyStr, htE]

/-- Concrete run of `call_known_tool_wraps_result` on a news-tool call for
ticker AAPL. -/
theorem call_known_tool_wraps_result_witness :
    handle_call_tool (fun _ => "NEWS") (fun _ => "TECH") (some (RpcId.num 1))
        [("name", Json.str "news_sentiment_tool"),
         ("arguments", Json.obj [("ticker_symbol", Json.str "AAPL")])]
      = ⟨"2.0", some (RpcId.num 1),
          some (textContent "News sentiment analysis for AAPL: NEWS"), Option.none⟩ :=
  (call_known_tool_wraps_result (fun _ => "NEWS") (fun _ => "TECH") (some (RpcId.num 1))
      [("name", Json.str "news_sentiment_tool"),
       ("arguments", Json.obj [("ticker_symbol", Json.str "AAPL")])]
      [("ticker_symbol", Json.str "AAPL")] "AAPL"
      (by decide) rfl rfl).1 rfl

/-- C4: for every tools/call naming an unregistered tool, and for every
request naming an unknown method, the response's error code equals
-32601. -/
theorem unknown_tool_and_method (news tech : Json → String) (rid : Option RpcId)
    (params : List (String × Json)) (body : Json) (rpc : JSONRPCRequest) :
    (jEqStr (jget params "name") "news_sentiment_tool" = false →
     jEqStr (jget params "name") "technical_analysis_tool" = false →
     errCode (handle_call_tool news tech rid params) = some (-32601))
    ∧ (parseJSONRPCRequest body = Except.ok rpc →
       rpc.method ≠ "initialize" → rpc.method ≠ "tools/list" → rpc.method ≠ "tools/call" →
       errCode (handle_single_request news tech body) = some (-32601)) := by
  constructor
  · intro h1 h2
    simp [handle_call_tool, h1, h2, errCode]
  · intro hp hm1 hm2 hm3
    unfold handle_single_request
    simp only [hp]
    simp [hm1, hm2, hm3, errCode]

/-- Concrete run of `unknown_tool_and_method`: an unregistered tool name
and an unknown method both yield -32601. -/
theorem unknown_tool_and_method_witness :
    errCode (handle_call_tool (fun _ => "") (fun _ => "") Option.none
        [("name", Json.str "mystery_tool")]) = some (-32601)
    ∧ errCode (handle_single_request (fun _ => "") (fun _ => "")
        (Json.obj [("method", Json.str "bogus/method")])) = some (-32601) :=
  ⟨(unknown_tool_and_method (fun _ => "") (fun _ => "") Option.none
      [("name", Json.str "mystery_tool")]
      (Json.obj [("method", Json.str "bogus/method")])
      ⟨"2.0", Option.none, "bogus/method", Option.none⟩).1 (by decide) (by decide),
   (unknown_tool_and_method (fun _ => "") (fun _ => "") Option.none
      [("name", Json.str "mystery_tool")]
      (Json.obj [("method", Json.str "bogus/method")])
      ⟨"2.0", Option.none, "bogus/method", Option.none⟩).2 rfl
      (by decide) (by decide) (by decide)⟩

/-- C5: for every tools/call naming a registered tool whose arguments
omit ticker_symbol (the arguments object may also be absent entirely),
the response's error code equals -32602. -/
theorem missing_ticker_rejected (news tech : Json → String) (rid : Option RpcId)
    (params akvs : List (String × Json))
    (hname : jEqStr (jget params "name") "news_sentiment_tool" = true
       ∨ jEqStr (jget params "name") "technical_analysis_tool" = true) :
    (jget params "arguments" = Option.none →
       errCode (handle_call_tool news tech rid params) = some (-32602))
    ∧ (jget params "arguments" = some (Json.obj akvs) →
       jget akvs "ticker_symbol" = Option.none →
       errCode (handle_call_tool news tech rid params) = some (-32602)) := by
  constructor
  · intro hargs
    rcases hname with h | h <;>
      (have hv := jEqStr_true _ _ h
       simp [handle_call_tool, hv, jEqStr, hargs, jget, optTruthy, errCode])
  · intro hargs htick
    rcases hname with h | h <;>
      (have hv := jEqStr_true _ _ h
       simp [handle_call_tool, hv, jEqStr, hargs, htick, optTruthy, errCode])

/-- Concrete run of `missing_ticker_rejected`: absent arguments on the
news tool, and an empty arguments object on the technical tool. -/
theorem missing_ticker_rejected_witness :
    errCode (handle_call_tool (fun _ => "") (fun _ => "") Option.none
        [("name", Json.str "news_sentiment_tool")]) = some (-32602)
    ∧ errCode (handle_call_tool (fun _ => "") (fun _ => "") Option.none
        [("name", Json.str "technical_analysis_tool"), ("arguments", Json.obj [])])
      = some (-32602) :=
  ⟨(missing_ticker_rejected (fun _ => "") (fun _ => "") Option.none
      [("name", Json.str "news_sentiment_tool")] [] (Or.inl (by decide))).1 rfl,
   (missing_ticker_rejected (fun _ => "") (fun _ => "") Option.none
      [("name", Json.str "technical_analysis_tool"), ("arguments", Json.obj [])] []
      (Or.inr (by decide))).2 rfl rfl⟩

/-- C10: for every tools/call naming a registered tool whose arguments
bind ticker_symbol to the empty string, the response's error code equals
-32602 — the required-parameter check is a falsiness test, so an empty
string is rejected exactly like an absent one. -/
theorem empty_ticker_rejected (news tech : Json → String) (rid : Option RpcId)
    (params akvs : List (String × Json))
    (hname : jEqStr (jget params "name") "news_sentiment_tool" = true
       ∨ jEqStr (jget params "name") "technical_analysis_tool" = true)
    (hargs : jget params "arguments" = some (Json.obj akvs))
    (htick : jget akvs "ticker_symbol" = some (Json.str "")) :
    errCode (handle_call_tool news tech rid params) = some (-32602) := by
  rcases hname with h | h <;>
    (have hv := jEqStr_true _ _ h
     simp [handle_call_tool, hv, jEqStr, hargs, htick, optTruthy, pyTruthy, errCode,
       show ("" : String).isEmpty = true from rfl])

/-- Concrete run of `empty_ticker_rejected` on the news tool. -/
theorem empty_ticker_rejected_witness :
    errCode (handle_call_tool (fun _ => "") (fun _ => "") Option.none
        [("name", Json.str "news_sentiment_tool"),
         ("arguments", Json.obj [("ticker_symbol", Json.str "")])]) = some (-32602) :=
  empty_ticker_rejected (fun _ => "") (fun _ => "") Option.none
    [("name", Json.str "news_sentiment_tool"),
     ("arguments", Json.obj [("ticker_symbol", Json.str "")])]
    [("ticker_symbol", Json.str "")] (Or.inl (by decide)) rfl rfl

/-- A well-formed item's loop iteration returns its digest line. -/
theorem articleLine_ok (i : Nat) (item : Json) (h : itemOk item = true) :
    articleLine i item = Except.ok ("Article #" ++ toString (i + 1) ++ ". "
      ++ titleOf item ++ " - " ++ summaryOf item) := by
  cases item with
  | null => simp [itemOk] at h
  | bool b => simp [itemOk] at h
  | num n => simp [itemOk] at h
  | str s => simp [itemOk] at h
  | arr xs => simp [itemOk] at h
  | obj kvs =>
    cases hc : (jget kvs "content").getD (Json.obj []) with
    | obj ckvs => simp [articleLine, titleOf, summaryOf, hc]
    | null => simp [itemOk, hc] at h
    | bool b => simp [itemOk, hc] at h
    | num n => simp [itemOk, hc] at h
    | str s => simp [itemOk, hc] at h
    | arr xs => simp [itemOk, hc] at h

/-- On a list of well-formed items the loop completes with the expected
digests. -/
theorem buildArticles_ok (items : List Json) :
    ∀ i, (∀ it ∈ items, itemOk it = true) →
      buildArticles i items = Except.ok (articleStrings i items) := by
  induction items with
  | nil => intro i _; simp [buildArticles, articleStrings]
  | cons item rest ih =>
    intro i h
    have h1 := h item (by simp)
    have h2 : ∀ it ∈ rest, itemOk it = true := fun it hit => h it (by simp [hit])
    simp [buildArticles, articleStrings, articleLine_ok i item h1, ih (i + 1) h2]
    rfl

/-- The digest list has one line per item. -/
theorem articleStrings_length (items : List Json) :
    ∀ i, (articleStrings i items).length = items.length := by
  induction items with
  | nil => intro i; rfl
  | cons item rest ih => intro i; simp [articleStrings, ih (i + 1)]

/-- Shape of the k-th digest line, relative to the starting index. -/
theorem articleStrings_getD (items : List Json) :
    ∀ i k, k < items.length →
      (articleStrings i items).getD k ""
        = "Article #" ++ toString (i + k + 1) ++ ". "
          ++ titleOf (items.getD k Json.null) ++ " - "
          ++ summaryOf (items.getD k Json.null) := by
  induction items with
  | nil => intro i k hk; simp at hk
  | cons item rest ih =>
    intro i k hk
    cases k with
    | zero => simp [articleStrings]
    | succ k =>
      have harith : i + 1 + k + 1 = i + (k + 1) + 1 := by omega
      have hres := ih (i + 1) k (by simpa using hk)
      rw [harith] at hres
      simpa [articleStrings] using hres

/-- C8: for every ticker, the news provider returns the fixed placeholder
sentence when the fetched news list is empty, and otherwise one string
per news item where the k-th (1-indexed) has the form
"Article #k. \x7btitle\x7d - \x7bsummary\x7d"; on any fault it returns a
textual error description instead of a sequence. -/
theorem news_digest_spec (e : String) (items : List Json) :
    (fetch_news_sentiment (FetchOutcome.fault e)
       = NewsResult.text ("Error fetching news articles: " ++ e))
    ∧ (fetch_news_sentiment (FetchOutcome.news [])
       = NewsResult.text "No recent news available for this ticker.")
    ∧ (items ≠ [] → (∀ it ∈ items, itemOk it = true) →
        fetch_news_sentiment (FetchOutcome.news items)
          = NewsResult.digest (articleStrings 0 items)
        ∧ (articleStrings 0 items).length = items.length
        ∧ ∀ k, k < items.length →
            (articleStrings 0 items).getD k ""
              = "Article #" ++ toString (k + 1) ++ ". "
                ++ titleOf (items.getD k Json.null) ++ " - "
                ++ summaryOf (items.getD k Json.null)) := by
  refine ⟨rfl, rfl, ?_⟩
  intro hne hok
  have hempty : items.isEmpty = false := by
    cases items with
    | nil => exact absurd rfl hne
    | cons a l => rfl
  refine ⟨?_, articleStrings_length items 0, ?_⟩
  · simp [fetch_news_sentiment, hempty, buildArticles_ok items 0 hok]
  · intro k hk
    have := articleStrings_getD items 0 k hk
    simpa using this

/-- Concrete run of `news_digest_spec` on a one-item news list. -/
theorem news_digest_spec_witness :
    fetch_news_sentiment (FetchOutcome.news
        [Json.obj [("content", Json.obj [("title", Json.str "T"), ("summary", Json.str "S")])]])
      = NewsResult.digest (articleStrings 0
          [Json.obj [("content", Json.obj [("title", Json.str "T"), ("summary", Json.str "S")])]]) :=
  ((news_digest_spec "x"
      [Json.obj [("content", Json.obj [("title", Json.str "T"), ("summary", Json.str "S")])]]).2.2
      (by simp) (by decide)).1

/-- C2 counterexample: a connection failure and an HTTP 500 both make
`call_tool` raise — the fault escapes the client instead of coming back
as an error string. -/
theorem call_tool_raises_on_transport_fault :
    call_tool (TransportOutcome.connectError "Connection refused")
      = CallResult.raised "Connection refused"
    ∧ call_tool (TransportOutcome.httpResponse 500 (some Json.null))
      = CallResult.raised "HTTP status error 500" :=
  ⟨rfl, rfl⟩

/-- C2 (amended): on a transport fault (connection failure, or HTTP
status >= 400 via raise_for_status) `call_tool` raises and the fault
propagates past the client boundary; a textual error description is
returned only when the HTTP exchange itself succeeds and the fault is
carried inside the decoded response, e.g. a JSON-RPC error object. -/
theorem call_tool_fault_behavior (msg : String) (status : Nat) (body : Option Json)
    (kvs ekvs : List (String × Json)) :
    (call_tool (TransportOutcome.connectError msg) = CallResult.raised msg)
    ∧ (400 ≤ status →
        call_tool (TransportOutcome.httpResponse status body)
          = CallResult.raised ("HTTP status error " ++ toString status))
    ∧ (status < 400 → jget kvs "error" = some (Json.obj ekvs) →
        call_tool (TransportOutcome.httpResponse status (some (Json.obj kvs)))
          = CallResult.returned (formatErrorInfo (Json.obj ekvs))) := by
  refine ⟨rfl, ?_, ?_⟩
  · intro h
    simp [call_tool, h]
  · intro h herr
    simp [call_tool, show ¬ 400 ≤ status from by omega, processRpcResponse, herr]

/-- Concrete run of `call_tool_fault_behavior`: a 503 raises, a 200
carrying a JSON-RPC error object comes back as text. -/
theorem call_tool_fault_behavior_witness :
    call_tool (TransportOutcome.httpResponse 503 Option.none)
      = CallResult.raised "HTTP status error 503"
    ∧ call_tool (TransportOutcome.httpResponse 200
        (some (Json.obj [("error",
          Json.obj [("code", Json.num (-32601)), ("message", Json.str "nope")])])))
      = CallResult.returned (formatErrorInfo
          (Json.obj [("code", Json.num (-32601)), ("message", Json.str "nope")])) :=
  ⟨(call_tool_fault_behavior "m" 503 Option.none [] []).2.1 (by decide),
   (call_tool_fault_behavior "m" 200 Option.none
      [("error", Json.obj [("code", Json.num (-32601)), ("message", Json.str "nope")])]
      [("code", Json.num (-32601)), ("message", Json.str "nope")]).2.2 (by decide) rfl⟩
